import Mathlib

/-!
Verification of the data transfer interface core (src/core/xfer.c).

The C file implements a dispatch layer over "data transfer interfaces":
each handle records its current partner (the `intf.dest` field) and an
operations table (the `op` field).  The five dispatch functions resolve
the partner and invoke the partner's operation; helper methods provide
no-op defaults and representation adaptors; a static null sentinel
absorbs traffic of unplugged handles.

Shallow embedding: handles are identifiers, the mutable world (the
partner field of every handle, the list of released I/O buffers, and an
arbitrary external component state) is an explicit `State`, and an
operations table is a record of state transformers.  Helpers that xfer.c
takes from headers outside the provided sources (`xfer_dest`,
`xfer_unplug`, `alloc_iob`, `iob_put`, `free_iob`, `iob_len`) are
modelled from the spec, each marked as such in its doc comment.
-/

namespace Xfer

/-- A handle (one `struct xfer_interface`) is named by an identifier. -/
abbrev HandleId := Nat

/-- The identifier of the static null sentinel `null_xfer`. -/
def nullId : HandleId := 0

/-- An I/O buffer (`struct io_buffer`): its payload bytes. -/
structure IOBuf where
  data : List Nat

/-- Modelled from the spec: `iob_len` (missing header `gpxe/iobuf.h`) —
the length metadata of a structured buffer, equal to its byte count. -/
def iob_len (b : IOBuf) : Nat := b.data.length

/-- The mutable world: the `intf.dest` (partner) field of every handle,
the multiset of buffers released via `free_iob` so far (kept in order of
release, so releasing "exactly once" is observable), and an arbitrary
external state `ext` owned by the concrete endpoint implementations. -/
structure State (σ : Type) where
  partner : HandleId → HandleId
  freed : List IOBuf
  ext : σ

variable {σ : Type}

/-- Modelled from the spec: `free_iob` / `release(buffer)` (opaque
capability, missing header) — records the release of a buffer. -/
def free_iob (st : State σ) (b : IOBuf) : State σ :=
  { st with freed := st.freed ++ [b] }

/-- Modelled from the spec: `xfer_dest` / `getPartner(handle)` (missing
header `gpxe/xfer.h`) — returns the handle's current partner; no side
effects, no failure mode. -/
def xfer_dest (st : State σ) (h : HandleId) : HandleId := st.partner h

/-- Modelled from the spec: `xfer_unplug(handle)` (missing header
`gpxe/xfer.h`) — sets the handle's partner to the null sentinel.  The
shared-ownership release on the old partner is elided: the spec treats
the counter as an opaque external collaborator and no claim observes it. -/
def xfer_unplug (st : State σ) (h : HandleId) : State σ :=
  { st with partner := fun k => if k = h then nullId else st.partner k }

/-- An operations table (`struct xfer_interface_operations`): one entry
per event, each an arbitrary transformer of the world state.  `close`
returns no status; the four others return a status code alongside the
new state. -/
structure Ops (σ : Type) where
  close : HandleId → Int → State σ → State σ
  vredirect : HandleId → Int → List Int → State σ → State σ × Int
  seek : HandleId → Nat → State σ → State σ × Int
  deliver : HandleId → IOBuf → State σ → State σ × Int
  deliver_raw : HandleId → List Nat → Nat → State σ → State σ × Int

/-- The (static) assignment of operations tables to handles: xfer.c
never writes any `op` field, and the spec fixes each table for the
handle's lifetime, so it is an environment rather than part of `State`. -/
abbrev Env (σ : Type) := HandleId → Ops σ

/-- `close` (xfer.c line 35): resolves `dest`, invokes the partner's
`close` with the same reason code, then unplugs the caller's own handle.
Returns no status. -/
def close (op : Env σ) (xfer : HandleId) (rc : Int) (st : State σ) : State σ :=
  let dest := xfer_dest st xfer
  xfer_unplug ((op dest).close dest rc st) xfer

/-- `seek` (xfer.c line 49): resolves `dest` and returns the partner's
`seek` result. -/
def seek (op : Env σ) (xfer : HandleId) (pos : Nat) (st : State σ) : State σ × Int :=
  let dest := xfer_dest st xfer
  (op dest).seek dest pos st

/-- `vredirect` (xfer.c line 63): resolves `dest` and returns the
partner's `vredirect` result.  The variadic payload is an opaque
argument list threaded through uninspected. -/
def vredirect (op : Env σ) (xfer : HandleId) (type : Int) (args : List Int)
    (st : State σ) : State σ × Int :=
  let dest := xfer_dest st xfer
  (op dest).vredirect dest type args st

/-- `redirect` (xfer.c line 77): packages its trailing arguments into
the variadic form and delegates to `vredirect`, returning its status. -/
def redirect (op : Env σ) (xfer : HandleId) (type : Int) (args : List Int)
    (st : State σ) : State σ × Int :=
  vredirect op xfer type args st

/-- `deliver` (xfer.c line 94): resolves `dest` and returns the
partner's `deliver` result. -/
def deliver (op : Env σ) (xfer : HandleId) (iobuf : IOBuf) (st : State σ) :
    State σ × Int :=
  let dest := xfer_dest st xfer
  (op dest).deliver dest iobuf st

/-- `deliver_raw` (xfer.c line 107): resolves `dest` and returns the
partner's `deliver_raw` result. -/
def deliver_raw (op : Env σ) (xfer : HandleId) (data : List Nat) (len : Nat)
    (st : State σ) : State σ × Int :=
  let dest := xfer_dest st xfer
  (op dest).deliver_raw dest data len st

/-- `ignore_close` (xfer.c line 128): nothing to do. -/
def ignore_close (_xfer : HandleId) (_rc : Int) (st : State σ) : State σ := st

/-- `ignore_vredirect` (xfer.c line 140): returns 0, no effect. -/
def ignore_vredirect (_xfer : HandleId) (_type : Int) (_args : List Int)
    (st : State σ) : State σ × Int := (st, 0)

/-- `ignore_seek` (xfer.c line 152): returns 0, no effect. -/
def ignore_seek (_xfer : HandleId) (_pos : Nat) (st : State σ) : State σ × Int :=
  (st, 0)

/-- `ignore_deliver_raw` (xfer.c line 206): discards the data and
returns 0.  Its `DBGC` diagnostic is compiled out of non-debug builds
and touches no state. -/
def ignore_deliver_raw (_xfer : HandleId) (_data : List Nat) (_len : Nat)
    (st : State σ) : State σ × Int := (st, 0)

/-- The body of `deliver_as_raw` (xfer.c line 166) factored over the
handle's own `deliver_raw` implementation, passed explicitly.  This
currying lets the static table `null_xfer_ops` install `deliver_as_raw`
on itself without a circular definition: at the null sentinel the
consulted `deliver_raw` entry is `ignore_deliver_raw`. -/
def deliver_as_raw_via (dr : HandleId → List Nat → Nat → State σ → State σ × Int)
    (xfer : HandleId) (iobuf : IOBuf) (st : State σ) : State σ × Int :=
  let p := dr xfer iobuf.data (iob_len iobuf) st
  (free_iob p.1 iobuf, p.2)

/-- `deliver_as_raw` (xfer.c line 166): invokes the handle's own
`deliver_raw` with the buffer's byte pointer and length, then releases
the buffer unconditionally, and returns the inner status. -/
def deliver_as_raw (op : Env σ) (xfer : HandleId) (iobuf : IOBuf)
    (st : State σ) : State σ × Int :=
  deliver_as_raw_via (op xfer).deliver_raw xfer iobuf st

/-- The `errno.h` out-of-memory code. -/
def ENOMEM : Int := 12

/-- `deliver_as_iobuf` (xfer.c line 186).  `alloc_iob`, `iob_put` and
`memcpy` come from headers outside the provided sources; modelled from
the spec: the allocator is an opaque capability that may fail, its
outcome is the `alloc_ok` parameter; on success the fresh buffer filled
by the copy holds exactly the first `len` bytes of `data` and is handed
to the handle's own `deliver`; on failure `-ENOMEM` is returned with no
further action. -/
def deliver_as_iobuf (op : Env σ) (alloc_ok : Bool) (xfer : HandleId)
    (data : List Nat) (len : Nat) (st : State σ) : State σ × Int :=
  if alloc_ok then
    (op xfer).deliver xfer ⟨data.take len⟩ st
  else
    (st, -ENOMEM)

/-- `null_xfer_ops` (xfer.c line 215).  The `deliver` entry is
`deliver_as_raw`; since the table is its own handle's table, the
`deliver_raw` implementation it consults is `ignore_deliver_raw`. -/
def null_xfer_ops : Ops σ where
  close := ignore_close
  vredirect := ignore_vredirect
  seek := ignore_seek
  deliver := deliver_as_raw_via ignore_deliver_raw
  deliver_raw := ignore_deliver_raw

/-- The static fields of one `struct xfer_interface`: the `intf.dest`
back-reference, the optional shared-ownership counter `intf.refcnt`
(absent = `NULL`), and the operations table. -/
structure XferInterface (σ : Type) where
  dest : HandleId
  refcnt : Option Unit
  op : Ops σ

/-- `null_xfer` (xfer.c line 230): partner is itself, no
reference counter, operations table `null_xfer_ops`. -/
def null_xfer : XferInterface σ :=
  { dest := nullId, refcnt := none, op := null_xfer_ops }

/-- A concrete environment wiring every handle to the null table; used
to instantiate theorems at concrete inputs. -/
def nullEnv : Env Unit := fun _ => null_xfer_ops

/-- A concrete state in which every handle is unplugged. -/
def st0 : State Unit :=
  { partner := fun _ => nullId, freed := [], ext := () }

/-- A concrete state in which handle 1 is plugged to handle 2. -/
def stAB : State Unit :=
  { partner := fun k => if k = 1 then 2 else nullId, freed := [], ext := () }

/-- An environment whose `deliver` increments a counter, making the
number of `deliver` invocations observable. -/
def countEnv : Env Nat := fun _ =>
  { close := ignore_close
    vredirect := ignore_vredirect
    seek := ignore_seek
    deliver := fun _ _ st => ({ st with ext := st.ext + 1 }, 0)
    deliver_raw := ignore_deliver_raw }

/-- An environment in which every non-null handle's `seek` reentrantly
unplugs handle `A` before returning status 7; the null sentinel keeps
its real table. -/
def reentrantEnv (A : HandleId) : Env Unit := fun h =>
  if h = nullId then null_xfer_ops
  else { null_xfer_ops with seek := fun _ _ st => (xfer_unplug st A, 7) }

/-- C1: every dispatch operation (`close`, `seek`, `vredirect`,
`deliver`, `deliver_raw`) invokes exactly the operation registered in
the operations table of `xfer_dest st xfer` — the handle's partner,
never the handle's own table (the right-hand sides consult `op` only at
the partner) — forwarding all arguments unchanged, and, for the
status-returning operations, the whole result is the partner's result
unchanged. -/
theorem dispatch_uses_partner_ops (σ : Type) (op : Env σ) (xfer : HandleId)
    (rc type : Int) (args : List Int) (pos len : Nat) (data : List Nat)
    (iobuf : IOBuf) (st : State σ) :
    close op xfer rc st
      = xfer_unplug ((op (xfer_dest st xfer)).close (xfer_dest st xfer) rc st) xfer
    ∧ seek op xfer pos st
      = (op (xfer_dest st xfer)).seek (xfer_dest st xfer) pos st
    ∧ vredirect op xfer type args st
      = (op (xfer_dest st xfer)).vredirect (xfer_dest st xfer) type args st
    ∧ deliver op xfer iobuf st
      = (op (xfer_dest st xfer)).deliver (xfer_dest st xfer) iobuf st
    ∧ deliver_raw op xfer data len st
      = (op (xfer_dest st xfer)).deliver_raw (xfer_dest st xfer) data len st :=
  ⟨rfl, rfl, rfl, rfl, rfl⟩

/-- C2: `close xfer rc` first invokes the partner's `close` with the
same `rc`, then unplugs the caller's own handle; afterwards the
handle's partner is the null sentinel, whatever state the partner's
`close` implementation produced (the environment `op` is arbitrary).
`close` returns only the new state — no status (its type has no `Int`
component). -/
theorem close_notifies_partner_then_unplugs (σ : Type) (op : Env σ)
    (xfer : HandleId) (rc : Int) (st : State σ) :
    close op xfer rc st
      = xfer_unplug ((op (st.partner xfer)).close (st.partner xfer) rc st) xfer
    ∧ (close op xfer rc st).partner xfer = nullId := by
  refine ⟨rfl, ?_⟩
  simp [close, xfer_unplug]

/-- C4: `deliver_as_raw xfer iobuf` invokes the handle's own
`deliver_raw` (the environment consulted at `xfer` itself, not at the
partner) with exactly the buffer's bytes and its length, releases the
buffer exactly once — unconditionally, for every environment, hence
whatever status the inner call returned — and the released-buffer list
grows by exactly that one buffer. -/
theorem deliver_as_raw_frees_once (σ : Type) (op : Env σ) (xfer : HandleId)
    (iobuf : IOBuf) (st : State σ) :
    deliver_as_raw op xfer iobuf st
      = (free_iob ((op xfer).deliver_raw xfer iobuf.data (iob_len iobuf) st).1 iobuf,
         ((op xfer).deliver_raw xfer iobuf.data (iob_len iobuf) st).2)
    ∧ (deliver_as_raw op xfer iobuf st).1.freed
      = ((op xfer).deliver_raw xfer iobuf.data (iob_len iobuf) st).1.freed ++ [iobuf] :=
  ⟨rfl, rfl⟩

/-- C7: the fixed-arity `redirect` packages its trailing arguments and
delegates to `vredirect`, returning exactly its result: the two entry
points agree on every handle, location type, argument list and state. -/
theorem redirect_eq_vredirect (σ : Type) (op : Env σ) (xfer : HandleId)
    (type : Int) (args : List Int) (st : State σ) :
    redirect op xfer type args st = vredirect op xfer type args st :=
  rfl

/-- C8: the ignore helpers are total no-ops: for every handle, input
and state, `ignore_close` returns the state unchanged, `ignore_seek`
and `ignore_vredirect` return success (0) with the state unchanged, and
`ignore_deliver_raw` discards the data and returns success (0) with the
state unchanged — no state is modified and no reference to the input is
retained. -/
theorem ignore_helpers_are_noops (σ : Type) (h : HandleId) (rc type : Int)
    (args : List Int) (pos len : Nat) (data : List Nat) (st : State σ) :
    ignore_close h rc st = st
    ∧ ignore_seek h pos st = (st, 0)
    ∧ ignore_vredirect h type args st = (st, 0)
    ∧ ignore_deliver_raw h data len st = (st, 0) :=
  ⟨rfl, rfl, rfl, rfl⟩

/-- C10: the representation adaptors propagate the inner status
unchanged: `deliver_as_raw` returns exactly the status of the handle's
own `deliver_raw` call (though it releases the buffer afterwards), and
`deliver_as_iobuf`, when allocation succeeds, returns exactly the
status of the handle's own `deliver` call. -/
theorem adaptors_propagate_status (σ : Type) (op : Env σ) (xfer : HandleId)
    (iobuf : IOBuf) (data : List Nat) (len : Nat) (st : State σ) :
    (deliver_as_raw op xfer iobuf st).2
      = ((op xfer).deliver_raw xfer iobuf.data (iob_len iobuf) st).2
    ∧ (deliver_as_iobuf op true xfer data len st).2
      = ((op xfer).deliver xfer ⟨data.take len⟩ st).2 :=
  ⟨rfl, rfl⟩

/-- C3: `deliver_as_iobuf` on allocation failure returns `-ENOMEM` with
the state wholly untouched (no buffer forwarded, nothing released, the
raw input still the caller's); on allocation success its entire
behavior is one invocation of the handle's own `deliver` with the fresh
buffer whose bytes are exactly the first `len` bytes of `data`.  With
the counting environment, allocation failure leaves the `deliver`
counter unchanged (`deliver` is never invoked) and allocation success
increments it by exactly one (`deliver` is invoked exactly once). -/
theorem deliver_as_iobuf_copies_or_enomem (σ : Type) (op : Env σ)
    (xfer : HandleId) (data : List Nat) (len : Nat) (st : State σ) :
    deliver_as_iobuf op false xfer data len st = (st, -ENOMEM)
    ∧ deliver_as_iobuf op true xfer data len st
      = (op xfer).deliver xfer ⟨data.take len⟩ st
    ∧ (∀ st2 : State Nat,
        (deliver_as_iobuf countEnv false xfer data len st2).1.ext = st2.ext)
    ∧ (∀ st2 : State Nat,
        (deliver_as_iobuf countEnv true xfer data len st2).1.ext = st2.ext + 1) :=
  ⟨rfl, rfl, fun _ => rfl, fun _ => rfl⟩

/-- C5: the null sentinel's partner is itself, its shared-ownership
counter is absent, and its operations table is exactly
`{close := ignore_close, seek := ignore_seek,
vredirect := ignore_vredirect, deliver := deliver_as_raw,
deliver_raw := ignore_deliver_raw}` (the `deliver` entry agrees with
`deliver_as_raw` at the null handle in every environment wiring the
null handle to its table).  Consequently, for any handle whose partner
is the null sentinel and any input: `close` has no observable effect,
`seek`, `vredirect` and `redirect` return success with no effect,
`deliver_raw` discards the data and returns success, and `deliver`
(via the raw adaptor) discards (releases) the buffer and returns
success. -/
theorem null_xfer_absorbs (σ : Type) (op : Env σ) (H : HandleId)
    (rc type : Int) (args : List Int) (pos len : Nat) (data : List Nat)
    (iobuf : IOBuf) (st : State σ) (henv : op nullId = null_xfer_ops)
    (hp : st.partner H = nullId) :
    (null_xfer : XferInterface σ).dest = nullId
    ∧ (null_xfer : XferInterface σ).refcnt = none
    ∧ (null_xfer : XferInterface σ).op = null_xfer_ops
    ∧ (null_xfer_ops : Ops σ).close = ignore_close
    ∧ (null_xfer_ops : Ops σ).seek = ignore_seek
    ∧ (null_xfer_ops : Ops σ).vredirect = ignore_vredirect
    ∧ (null_xfer_ops : Ops σ).deliver nullId = deliver_as_raw op nullId
    ∧ (null_xfer_ops : Ops σ).deliver_raw = ignore_deliver_raw
    ∧ close op H rc st = st
    ∧ seek op H pos st = (st, 0)
    ∧ vredirect op H type args st = (st, 0)
    ∧ redirect op H type args st = (st, 0)
    ∧ deliver_raw op H data len st = (st, 0)
    ∧ deliver op H iobuf st = (free_iob st iobuf, 0) := by
  have hpf : (fun k => if k = H then nullId else st.partner k) = st.partner := by
    funext k
    by_cases hk : k = H
    · simp [hk, hp]
    · simp [hk]
  refine ⟨rfl, rfl, rfl, rfl, rfl, rfl, ?_, rfl, ?_, ?_, ?_, ?_, ?_, ?_⟩
  · funext b s
    simp [deliver_as_raw, henv, null_xfer_ops]
  · simp [close, xfer_dest, hp, henv, null_xfer_ops, ignore_close,
      xfer_unplug, hpf]
  · simp [seek, xfer_dest, hp, henv, null_xfer_ops, ignore_seek]
  · simp [vredirect, xfer_dest, hp, henv, null_xfer_ops, ignore_vredirect]
  · simp [redirect, vredirect, xfer_dest, hp, henv, null_xfer_ops,
      ignore_vredirect]
  · simp [deliver_raw, xfer_dest, hp, henv, null_xfer_ops, ignore_deliver_raw]
  · simp [deliver, xfer_dest, hp, henv, null_xfer_ops, deliver_as_raw_via,
      ignore_deliver_raw]

/-- Witness for C5 at concrete inputs: handle 3, unplugged in `st0`,
under the environment wiring every handle to the null table. -/
theorem null_xfer_absorbs_witness :
    seek nullEnv 3 100 st0 = (st0, 0) :=
  (null_xfer_absorbs Unit nullEnv 3 (-1) 2 [] 100 0 [] ⟨[]⟩ st0 rfl
    rfl).2.2.2.2.2.2.2.2.2.1

/-- C6: with `st.partner A = B` and `B ≠ A`, `close A rc` invokes B's
registered `close` with that `rc` and then unplugs only A: afterwards
A's partner is the null sentinel, B's partner field is exactly what B's
own close operation left (unchanged by the dispatch itself — so
unchanged whenever B's operation preserved it, as the `hframe`
hypothesis records), and every handle other than A keeps the partner
field B's operation left it. -/
theorem close_unplugs_only_caller (σ : Type) (op : Env σ) (A B : HandleId)
    (rc : Int) (st : State σ) (hB : st.partner A = B) (hBA : B ≠ A)
    (hframe : ((op B).close B rc st).partner B = st.partner B) :
    close op A rc st = xfer_unplug ((op B).close B rc st) A
    ∧ (close op A rc st).partner A = nullId
    ∧ (close op A rc st).partner B = st.partner B
    ∧ ∀ k, k ≠ A →
        (close op A rc st).partner k = ((op B).close B rc st).partner k := by
  subst hB
  refine ⟨rfl, ?_, ?_, ?_⟩
  · simp [close, xfer_dest, xfer_unplug]
  · simp [close, xfer_dest, xfer_unplug, hBA, hframe]
  · intro k hk
    simp [close, xfer_dest, xfer_unplug, hk]

/-- Witness for C6: handles 1 and 2 connected in `stAB`, with B's close
the no-op `ignore_close`. -/
theorem close_unplugs_only_caller_witness :
    (close nullEnv 1 (-5) stAB).partner 1 = nullId :=
  (close_unplugs_only_caller Unit nullEnv 1 2 (-5) stAB rfl (by decide)
    rfl).2.1

/-- C9: every dispatch operation captures the partner once at entry:
`close`, `seek`, `vredirect`, `deliver` and `deliver_raw` each apply
the operation of the partner resolved from the entry state, for every
environment — including those whose operation reentrantly unplugs the
in-flight handle (reassigns its partner before returning) — so the
in-flight call completes against the peer resolved at call time; and a
call made after one that left the handle's partner at the null sentinel
(in particular any call after `close`) dispatches to the sentinel: it
returns success with no effect. -/
theorem dispatch_captures_partner_at_entry (σ : Type) (op : Env σ)
    (A : HandleId) (rc type : Int) (args : List Int) (pos pos2 len : Nat)
    (data : List Nat) (iobuf : IOBuf) (st : State σ)
    (henv : op nullId = null_xfer_ops) :
    close op A rc st
      = xfer_unplug ((op (st.partner A)).close (st.partner A) rc st) A
    ∧ seek op A pos st = (op (st.partner A)).seek (st.partner A) pos st
    ∧ vredirect op A type args st
      = (op (st.partner A)).vredirect (st.partner A) type args st
    ∧ deliver op A iobuf st = (op (st.partner A)).deliver (st.partner A) iobuf st
    ∧ deliver_raw op A data len st
      = (op (st.partner A)).deliver_raw (st.partner A) data len st
    ∧ ((seek op A pos st).1.partner A = nullId →
        seek op A pos2 (seek op A pos st).1 = ((seek op A pos st).1, 0))
    ∧ seek op A pos2 (close op A rc st) = (close op A rc st, 0) := by
  refine ⟨rfl, rfl, rfl, rfl, rfl, ?_, ?_⟩
  · generalize (seek op A pos st).1 = st2
    intro h
    simp [seek, xfer_dest, h, henv, null_xfer_ops, ignore_seek]
  · have hc : (close op A rc st).partner A = nullId := by
      simp [close, xfer_unplug]
    generalize hg : close op A rc st = st3
    rw [hg] at hc
    simp [seek, xfer_dest, hc, henv, null_xfer_ops, ignore_seek]

/-- Witness for C9: in `stAB`, handle 2's seek reentrantly unplugs
handle 1 and returns 7; the in-flight `seek` on 1 completes against 2,
and the subsequent `seek` on 1 observes the null sentinel, returning
success with no effect. -/
theorem dispatch_captures_partner_at_entry_witness :
    seek (reentrantEnv 1) 1 6 (seek (reentrantEnv 1) 1 5 stAB).1
      = ((seek (reentrantEnv 1) 1 5 stAB).1, 0) :=
  (dispatch_captures_partner_at_entry Unit (reentrantEnv 1) 1 (-3) 2 [] 5 6
    0 [] ⟨[]⟩ stAB rfl).2.2.2.2.2.1 rfl

end Xfer
